import Mathlib

/-!
Shallow embedding of the authentication core of the Task-Management-Application
backend (`backend/app/routers/auth.py`), together with the parts of its data
model and token codec that the router uses.

Modelling conventions:
* Time is an abstract `Nat` clock; every operation receives the current time
  `now` as an explicit argument (the source reads `datetime.utcnow()`).
* A signed token string is modelled by its decoded payload `TokenPayload`:
  signing with the server secret is injective and verification happens inside
  the trust boundary, so two token strings are equal iff their payloads are.
* Database queries preserve insertion order; `.first()` is `List.find?`.
* Each HTTP operation returns its response (`Except AuthError α`) together
  with the database state after the request; a raised `HTTPException` before
  `commit` leaves the database unchanged, which the pairing makes explicit.
-/

namespace TaskApp

/-- Token type discriminator carried in every token payload. -/
inductive TokenType where
  | access
  | refresh
deriving DecidableEq, Repr

/-- Modelled from the spec: the decoded payload of a signed bearer token
(`app.core.security` is not in the source tree).  Per the spec the payload
carries the subject user id, for access tokens a snapshot of the email,
a type discriminator, the issued-at time and the expiry time. -/
structure TokenPayload where
  user_id : Nat
  email : Option String
  typ : TokenType
  iat : Nat
  exp : Nat
deriving DecidableEq, Repr

/-- Modelled from the spec: a salted password hash produced by the credential
hasher (`app.core.security` is not in the source tree).  The random salt is
externalized as an explicit argument. -/
structure PwHash where
  salt : String
  digest : String
deriving DecidableEq, Repr

/-- Modelled from the spec: salted one-way hashing (`get_password_hash` of
`app.core.security`); the digest binds the salt to the password. -/
def get_password_hash (password salt : String) : PwHash :=
  { salt := salt, digest := salt ++ password }

/-- Modelled from the spec: `verify_password` of `app.core.security`;
true iff the password matches the hash. -/
def verify_password (password : String) (h : PwHash) : Bool :=
  h.digest == h.salt ++ password

/-- User record (`app.models.user.User`, modelled from the spec's data model:
unique id, email, username, optional password hash, display name, avatar,
provider tag and external id, active flag, verified flag, last-login time). -/
structure User where
  id : Nat
  email : String
  username : String
  full_name : Option String
  hashed_password : Option PwHash
  avatar_url : Option String
  provider : String
  provider_id : Option String
  is_active : Bool
  is_verified : Bool
  last_login : Option Nat
deriving DecidableEq, Repr

/-- Refresh-token ledger record (`app.models.auth.RefreshToken`, modelled from
the spec: token string, owning user id, expiry, revoked flag); the fields are
exactly the ones the router reads and writes. -/
structure RefreshTokenRec where
  token : TokenPayload
  user_id : Nat
  expires_at : Nat
  is_revoked : Bool
deriving DecidableEq, Repr

/-- Session-registry record (`app.models.auth.Session`, modelled from the
spec: owning user id and active flag; the router only ever filters on and
clears `is_active`). -/
structure SessionRec where
  user_id : Nat
  is_active : Bool
deriving DecidableEq, Repr

/-- The persistent state the auth router touches: users, the refresh-token
ledger, the session registry, and the autoincrement counter for user ids. -/
structure DB where
  users : List User
  refresh_tokens : List RefreshTokenRec
  sessions : List SessionRec
  next_user_id : Nat
deriving DecidableEq, Repr

/-- `settings.ACCESS_TOKEN_EXPIRE_MINUTES` (`app/core/config.py`), default 30. -/
def ACCESS_TOKEN_EXPIRE_MINUTES : Nat := 30

/-- `settings.REFRESH_TOKEN_EXPIRE_DAYS` (`app/core/config.py`), default 7. -/
def REFRESH_TOKEN_EXPIRE_DAYS : Nat := 7

/-- Access-token lifetime in seconds. -/
def accessTokenTTL : Nat := ACCESS_TOKEN_EXPIRE_MINUTES * 60

/-- Refresh-token lifetime in seconds. -/
def refreshTokenTTL : Nat := REFRESH_TOKEN_EXPIRE_DAYS * 86400

/-- Modelled from the spec: `create_access_token` of `app.core.security`:
encodes subject id and email snapshot with type `access`,
issued-at `now` and expiry `now + ttl`. -/
def create_access_token (uid : Nat) (email : String) (now : Nat) : TokenPayload :=
  { user_id := uid, email := some email, typ := TokenType.access,
    iat := now, exp := now + accessTokenTTL }

/-- Modelled from the spec: `create_refresh_token` of `app.core.security`:
encodes the subject id with type `refresh`, issued-at `now` and
expiry `now + ttl`. -/
def create_refresh_token (uid : Nat) (now : Nat) : TokenPayload :=
  { user_id := uid, email := none, typ := TokenType.refresh,
    iat := now, exp := now + refreshTokenTTL }

/-- Errors surfaced by the auth operations.  `http s d` is an
`HTTPException(status_code=s, detail=d)` raised by the router itself; the
codec failures are the spec's `TokenExpired` / `TokenTypeMismatch`, which the
boundary maps to status 401 (`Unauthenticated`). -/
inductive AuthError where
  | tokenExpired
  | tokenTypeMismatch
  | http (statusCode : Nat) (detail : String)
deriving DecidableEq, Repr

/-- HTTP status code a given error surfaces as. -/
def AuthError.status : AuthError → Nat
  | AuthError.tokenExpired => 401
  | AuthError.tokenTypeMismatch => 401
  | AuthError.http s _ => s

/-- Token response schema (`app.schemas.auth.Token`). -/
structure Token where
  access_token : TokenPayload
  refresh_token : TokenPayload
  token_type : String
deriving DecidableEq, Repr

/-- Modelled from the spec: `verify_token` of `app.core.security`: fails with
`TokenExpired` if `now` is past the expiry, with `TokenTypeMismatch` if the
type claim differs from the expected type, and otherwise returns the decoded
claims. -/
def verify_token (tok : TokenPayload) (expected : TokenType) (now : Nat) :
    Except AuthError TokenPayload :=
  if tok.exp < now then Except.error AuthError.tokenExpired
  else if tok.typ ≠ expected then Except.error AuthError.tokenTypeMismatch
  else Except.ok tok

/-- `db.query(User).filter(User.email == email).first()`. -/
def findUserByEmail (users : List User) (email : String) : Option User :=
  users.find? fun u => u.email == email

/-- `db.query(User).filter(User.id == uid).first()`. -/
def findUserById (users : List User) (uid : Nat) : Option User :=
  users.find? fun u => u.id == uid

/-- Issue a token pair for `user` and persist the refresh token in the
ledger: the common tail of `register`, `login`, `refresh_token` and the
OAuth callbacks (`auth.py` lines 84-101, 124-141, 166-184, 248-265,
308-325). -/
def issueTokens (user : User) (now : Nat) (db : DB) : Except AuthError Token × DB :=
  let access := create_access_token user.id user.email now
  let refreshTok := create_refresh_token user.id now
  (Except.ok { access_token := access, refresh_token := refreshTok, token_type := "bearer" },
   { db with refresh_tokens := db.refresh_tokens ++
       [{ token := refreshTok, user_id := user.id,
          expires_at := now + refreshTokenTTL, is_revoked := false }] })

/-- `register` (`auth.py` lines 56-101): reject if any existing user shares
the email or the username, otherwise create the user (provider `local`,
hashed password, unverified) and issue a stored token pair. -/
def register (email username : String) (full_name : Option String)
    (password salt : String) (now : Nat) (db : DB) : Except AuthError Token × DB :=
  if (db.users.find? fun u => u.email == email || u.username == username).isSome then
    (Except.error (AuthError.http 400 "Email or username already registered"), db)
  else
    let user : User :=
      { id := db.next_user_id, email := email, username := username,
        full_name := full_name,
        hashed_password := some (get_password_hash password salt),
        avatar_url := none, provider := "local", provider_id := none,
        is_active := true, is_verified := false, last_login := none }
    issueTokens user now
      { db with users := db.users ++ [user], next_user_id := db.next_user_id + 1 }

/-- `login` (`auth.py` lines 103-141): look the user up by email; missing
user, missing password hash and failed verification all raise the same
401; a deactivated account raises a distinct 401; on success update
`last_login` and issue a stored token pair. -/
def login (email password : String) (now : Nat) (db : DB) : Except AuthError Token × DB :=
  match findUserByEmail db.users email with
  | none => (Except.error (AuthError.http 401 "Incorrect email or password"), db)
  | some user =>
    match user.hashed_password with
    | none => (Except.error (AuthError.http 401 "Incorrect email or password"), db)
    | some h =>
      if ¬ verify_password password h then
        (Except.error (AuthError.http 401 "Incorrect email or password"), db)
      else if ¬ user.is_active then
        (Except.error (AuthError.http 401 "Account is deactivated"), db)
      else
        issueTokens user now
          { db with users := db.users.map fun u =>
              if u.id == user.id then { u with last_login := some now } else u }

/-- The ledger filter of `refresh_token` (`auth.py` lines 150-155): the
record must hold the presented token, belong to the token's subject, be
unrevoked and be unexpired. -/
def refreshMatch (tok : TokenPayload) (uid now : Nat) (r : RefreshTokenRec) : Bool :=
  r.token == tok && r.user_id == uid && !r.is_revoked && decide (now < r.expires_at)

/-- Revoke the first record satisfying `p`, or `none` when no record does:
`query(...).first()` followed by `obj.is_revoked = True`. -/
def revokeFirst (p : RefreshTokenRec → Bool) : List RefreshTokenRec →
    Option (List RefreshTokenRec)
  | [] => none
  | r :: rs =>
    if p r then some ({ r with is_revoked := true } :: rs)
    else (revokeFirst p rs).map fun rs' => r :: rs'

/-- `refresh_token` (`auth.py` lines 143-184): verify the presented token as
a refresh token, consume the matching ledger record (revoke it), and issue a
freshly stored token pair for the owning user.  If the owning user row is
missing the source dereferences `None` (`user.id`), which surfaces as a 500
response; modelled as `http 500`. -/
def refresh_token (tok : TokenPayload) (now : Nat) (db : DB) :
    Except AuthError Token × DB :=
  match verify_token tok TokenType.refresh now with
  | Except.error e => (Except.error e, db)
  | Except.ok payload =>
    match revokeFirst (refreshMatch tok payload.user_id now) db.refresh_tokens with
    | none => (Except.error (AuthError.http 401 "Invalid refresh token"), db)
    | some toks =>
      match findUserById db.users payload.user_id with
      | none => (Except.error (AuthError.http 500 "Internal Server Error"), db)
      | some user => issueTokens user now { db with refresh_tokens := toks }

/-- `get_current_user` (`auth.py` lines 39-54): verify the bearer credential
(the codec expects type `access` here), load the user, and reject a missing
or inactive user with one 401. -/
def get_current_user (tok : TokenPayload) (now : Nat) (db : DB) :
    Except AuthError User :=
  match verify_token tok TokenType.access now with
  | Except.error e => Except.error e
  | Except.ok payload =>
    match findUserById db.users payload.user_id with
    | none => Except.error (AuthError.http 401 "User not found or inactive")
    | some user =>
      if ¬ user.is_active then
        Except.error (AuthError.http 401 "User not found or inactive")
      else Except.ok user

/-- The bulk update of `logout` on the ledger (`auth.py` lines 193-196):
set `is_revoked` on every unrevoked record of the user. -/
def revoke_all_for_user (uid : Nat) (l : List RefreshTokenRec) :
    List RefreshTokenRec :=
  l.map fun r =>
    if r.user_id == uid && !r.is_revoked then { r with is_revoked := true } else r

/-- The bulk update of `logout` on the registry (`auth.py` lines 199-202):
clear `is_active` on every active session of the user. -/
def close_all_for_user (uid : Nat) (l : List SessionRec) : List SessionRec :=
  l.map fun s =>
    if s.user_id == uid && s.is_active then { s with is_active := false } else s

/-- `logout` (`auth.py` lines 186-205): authenticate, then revoke every
unrevoked refresh token and deactivate every active session of the user. -/
def logout (tok : TokenPayload) (now : Nat) (db : DB) :
    Except AuthError String × DB :=
  match get_current_user tok now db with
  | Except.error e => (Except.error e, db)
  | Except.ok user =>
    (Except.ok "Successfully logged out",
     { db with refresh_tokens := revoke_all_for_user user.id db.refresh_tokens,
               sessions := close_all_for_user user.id db.sessions })

/-- The user record created on first federated sighting (`auth.py` lines
233-246 and 293-306): verified, tagged with the provider and its external
id, and without a password hash. -/
def mkFederatedUser (provider email username : String)
    (full_name avatar_url : Option String) (provider_id : String)
    (uid : Nat) : User :=
  { id := uid, email := email, username := username, full_name := full_name,
    hashed_password := none, avatar_url := avatar_url, provider := provider,
    provider_id := some provider_id, is_active := true, is_verified := true,
    last_login := none }

/-- The provider-independent tail of the OAuth callbacks (`auth.py` lines
230-265 and 290-325): resolve the user by the profile email alone; when
absent, create a verified user for the provider with no password hash; then
issue a stored token pair. -/
def federated_login (provider email username : String)
    (full_name avatar_url : Option String) (provider_id : String)
    (now : Nat) (db : DB) : Except AuthError Token × DB :=
  match findUserByEmail db.users email with
  | some user => issueTokens user now db
  | none =>
    let user := mkFederatedUser provider email username full_name avatar_url
      provider_id db.next_user_id
    issueTokens user now
      { db with users := db.users ++ [user], next_user_id := db.next_user_id + 1 }

/-- Normalized profile returned by Google's user-info endpoint, restricted to
the fields `google_callback` reads. -/
structure GoogleUserInfo where
  id : String
  email : String
  name : Option String
  picture : Option String
deriving DecidableEq, Repr

/-- Normalized profile returned by GitHub's user endpoint, restricted to the
fields `github_callback` reads. -/
structure GitHubUserInfo where
  id : Nat
  login : String
  email : String
  name : Option String
  avatar_url : Option String
deriving DecidableEq, Repr

/-- `google_callback` (`auth.py` lines 212-265) after the code exchange and
profile fetch: the username is the local part of the email
(`email.split("@")[0]`). -/
def google_callback (info : GoogleUserInfo) (now : Nat) (db : DB) :
    Except AuthError Token × DB :=
  federated_login "google" info.email ((info.email.splitOn "@").headD "")
    info.name info.picture info.id now db

/-- `github_callback` (`auth.py` lines 272-325) after the code exchange and
profile fetch: the username is the GitHub login and the provider id is
`str(user_info["id"])`. -/
def github_callback (info : GitHubUserInfo) (now : Nat) (db : DB) :
    Except AuthError Token × DB :=
  federated_login "github" info.email info.login info.name info.avatar_url
    (toString info.id) now db

/-! ## Concrete fixtures used by the witnesses -/

def hash1 : PwHash := get_password_hash "p1" "s1"

def user1 : User :=
  { id := 1, email := "a@x.com", username := "a", full_name := none,
    hashed_password := some hash1, avatar_url := none, provider := "local",
    provider_id := none, is_active := true, is_verified := false,
    last_login := none }

def tok1 : TokenPayload := create_refresh_token 1 100

def atok1 : TokenPayload := create_access_token 1 "a@x.com" 100

def rec1 : RefreshTokenRec :=
  { token := tok1, user_id := 1, expires_at := 100 + refreshTokenTTL,
    is_revoked := false }

def db1 : DB :=
  { users := [user1], refresh_tokens := [rec1], sessions := [],
    next_user_id := 2 }

def res1 : Token :=
  { access_token := create_access_token 1 "a@x.com" 101,
    refresh_token := create_refresh_token 1 101, token_type := "bearer" }

def db1r : DB :=
  { users := [user1],
    refresh_tokens := [{ rec1 with is_revoked := true },
      { token := create_refresh_token 1 101, user_id := 1,
        expires_at := 101 + refreshTokenTTL, is_revoked := false }],
    sessions := [], next_user_id := 2 }

def db0 : DB :=
  { users := [], refresh_tokens := [], sessions := [], next_user_id := 1 }

def user2 : User :=
  { id := 2, email := "b@x.com", username := "b", full_name := none,
    hashed_password := none, avatar_url := none, provider := "github",
    provider_id := some "42", is_active := true, is_verified := true,
    last_login := none }

def db2 : DB :=
  { users := [user1, user2], refresh_tokens := [], sessions := [],
    next_user_id := 3 }

def user3 : User :=
  { id := 3, email := "c@x.com", username := "c", full_name := none,
    hashed_password := some (get_password_hash "p3" "s3"), avatar_url := none,
    provider := "local", provider_id := none, is_active := false,
    is_verified := false, last_login := none }

def tok3 : TokenPayload := create_refresh_token 3 50

def rec3 : RefreshTokenRec :=
  { token := tok3, user_id := 3, expires_at := 50 + refreshTokenTTL,
    is_revoked := false }

def db3 : DB :=
  { users := [user3], refresh_tokens := [rec3], sessions := [],
    next_user_id := 4 }

def db4 : DB :=
  { users := [user1], refresh_tokens := [rec1],
    sessions := [{ user_id := 1, is_active := true }], next_user_id := 2 }

def userReg : User :=
  { id := 1, email := "a@x.com", username := "a", full_name := none,
    hashed_password := some (get_password_hash "p1" "s1"), avatar_url := none,
    provider := "local", provider_id := none, is_active := true,
    is_verified := false, last_login := none }

def resReg : Token :=
  { access_token := create_access_token 1 "a@x.com" 0,
    refresh_token := create_refresh_token 1 0, token_type := "bearer" }

def dbReg : DB :=
  { users := [userReg],
    refresh_tokens := [{ token := create_refresh_token 1 0, user_id := 1,
                         expires_at := 0 + refreshTokenTTL,
                         is_revoked := false }],
    sessions := [], next_user_id := 2 }

/-! ## Helper lemmas -/

theorem verify_token_ok {tok : TokenPayload} {ty : TokenType} {now : Nat}
    {p : TokenPayload} (h : verify_token tok ty now = Except.ok p) :
    p = tok ∧ ¬ tok.exp < now ∧ tok.typ = ty := by
  unfold verify_token at h
  by_cases h1 : tok.exp < now
  · rw [if_pos h1] at h; cases h
  · rw [if_neg h1] at h
    by_cases h2 : tok.typ ≠ ty
    · rw [if_pos h2] at h; cases h
    · rw [if_neg h2] at h
      cases h
      exact ⟨rfl, h1, not_not.mp h2⟩

theorem verify_token_ok_of {tok : TokenPayload} {ty : TokenType} {now : Nat}
    (h1 : ¬ tok.exp < now) (h2 : tok.typ = ty) :
    verify_token tok ty now = Except.ok tok := by
  unfold verify_token
  rw [if_neg h1, if_neg (not_not.mpr h2)]

theorem verify_token_error_status {tok : TokenPayload} {ty : TokenType}
    {now : Nat} {e : AuthError}
    (h : verify_token tok ty now = Except.error e) : e.status = 401 := by
  unfold verify_token at h
  by_cases h1 : tok.exp < now
  · rw [if_pos h1] at h; cases h; rfl
  · rw [if_neg h1] at h
    by_cases h2 : tok.typ ≠ ty
    · rw [if_pos h2] at h; cases h; rfl
    · rw [if_neg h2] at h; cases h

theorem refreshMatch_iff {tok : TokenPayload} {uid now : Nat}
    {r : RefreshTokenRec} :
    refreshMatch tok uid now r = true ↔
      r.token = tok ∧ r.user_id = uid ∧ r.is_revoked = false ∧
        now < r.expires_at := by
  simp [refreshMatch, Bool.and_eq_true, Bool.not_eq_true', and_assoc]

theorem revokeFirst_eq_none_iff (p : RefreshTokenRec → Bool)
    (l : List RefreshTokenRec) :
    revokeFirst p l = none ↔ ∀ r ∈ l, p r = false := by
  induction l with
  | nil => simp [revokeFirst]
  | cons a rs ih =>
    by_cases ha : p a
    · simp [revokeFirst, ha]
    · simp [revokeFirst, ha, Option.map_eq_none', ih,
        Bool.eq_false_iff.mpr ha]

theorem revokeFirst_spec {p : RefreshTokenRec → Bool}
    {l l' : List RefreshTokenRec} (h : revokeFirst p l = some l') :
    ∃ i a, l.get? i = some a ∧ p a = true ∧
      l' = l.set i { a with is_revoked := true } := by
  induction l generalizing l' with
  | nil => cases h
  | cons a rs ih =>
    unfold revokeFirst at h
    by_cases ha : p a
    · rw [if_pos ha] at h
      cases h
      exact ⟨0, a, rfl, ha, rfl⟩
    · rw [if_neg ha] at h
      rcases Option.map_eq_some'.mp h with ⟨rs', hrs', rfl⟩
      rcases ih hrs' with ⟨i, b, hget, hb, rfl⟩
      exact ⟨i + 1, b, hget, hb, rfl⟩

theorem revokeFirst_isSome {p : RefreshTokenRec → Bool}
    {l : List RefreshTokenRec} (h : ∃ r ∈ l, p r = true) :
    ∃ l', revokeFirst p l = some l' := by
  induction l with
  | nil => simp at h
  | cons a rs ih =>
    by_cases ha : p a
    · exact ⟨{ a with is_revoked := true } :: rs, by simp [revokeFirst, ha]⟩
    · rcases h with ⟨r, hr, hpr⟩
      rcases List.mem_cons.mp hr with rfl | hr
      · exact absurd hpr ha
      · rcases ih ⟨r, hr, hpr⟩ with ⟨l', hl'⟩
        exact ⟨a :: l', by simp [revokeFirst, ha, hl']⟩

theorem revokeFirst_consume {tok : TokenPayload} {uid t1 t2 : Nat}
    {l l' : List RefreshTokenRec}
    (hnd : (l.map fun r => r.token).Nodup)
    (h : revokeFirst (refreshMatch tok uid t1) l = some l')
    (ht : t1 ≤ t2) :
    ∀ r ∈ l', refreshMatch tok uid t2 r = false := by
  induction l generalizing l' with
  | nil => cases h
  | cons a rs ih =>
    rw [List.map_cons, List.nodup_cons] at hnd
    unfold revokeFirst at h
    by_cases ha : refreshMatch tok uid t1 a
    · rw [if_pos ha] at h
      cases h
      intro r hr
      rcases List.mem_cons.mp hr with rfl | hr
      · simp [refreshMatch]
      · have hat : a.token = tok := (refreshMatch_iff.mp ha).1
        rw [Bool.eq_false_iff]
        intro hc
        have hrt : r.token = tok := (refreshMatch_iff.mp hc).1
        exact hnd.1 (hat ▸ hrt ▸ List.mem_map_of_mem (fun x => x.token) hr)
    · rw [if_neg ha] at h
      rcases Option.map_eq_some'.mp h with ⟨rs', hrs', rfl⟩
      intro r hr
      rcases List.mem_cons.mp hr with rfl | hr
      · rw [Bool.eq_false_iff]
        intro hc
        rcases refreshMatch_iff.mp hc with ⟨h1, h2, h3, h4⟩
        exact ha (refreshMatch_iff.mpr ⟨h1, h2, h3, lt_of_le_of_lt ht h4⟩)
      · exact ih hnd.2 hrs' r hr

theorem findUserById_some {users : List User} {uid : Nat} {u : User}
    (h : findUserById users uid = some u) : u ∈ users ∧ u.id = uid := by
  refine ⟨List.mem_of_find?_eq_some h, ?_⟩
  have := List.find?_some h
  simpa using this

theorem findUserByEmail_some {users : List User} {email : String} {u : User}
    (h : findUserByEmail users email = some u) :
    u ∈ users ∧ u.email = email := by
  refine ⟨List.mem_of_find?_eq_some h, ?_⟩
  have := List.find?_some h
  simpa using this

theorem find?_append_of_none {α : Type} {p : α → Bool} {l₁ l₂ : List α}
    (h : l₁.find? p = none) : (l₁ ++ l₂).find? p = l₂.find? p := by
  induction l₁ with
  | nil => rfl
  | cons a rs ih =>
    by_cases ha : p a
    · simp [List.find?_cons, ha] at h
    · simp only [List.find?_cons, ha, cond_false, Bool.eq_false_iff.mpr ha] at h
      rw [List.cons_append, List.find?_cons]
      simp only [Bool.eq_false_iff.mpr ha, cond_false]
      exact ih h

theorem findUserByEmail_append_self (users : List User) (u : User)
    (hn : findUserByEmail users u.email = none) :
    findUserByEmail (users ++ [u]) u.email = some u := by
  unfold findUserByEmail at hn ⊢
  rw [find?_append_of_none hn]
  simp [List.find?]

theorem mem_set_of_get? {α : Type} {l : List α} {i : Nat} {a b : α}
    (h : l.get? i = some a) : b ∈ l.set i b := by
  induction l generalizing i with
  | nil => cases h
  | cons x xs ih =>
    cases i with
    | zero => exact List.mem_cons_self _ _
    | succ n => exact List.mem_cons_of_mem x (ih h)

/-- Inversion of a successful `refresh_token` call. -/
theorem refresh_token_ok {tok : TokenPayload} {now : Nat} {db db' : DB}
    {res : Token} (h : refresh_token tok now db = (Except.ok res, db')) :
    (¬ tok.exp < now ∧ tok.typ = TokenType.refresh) ∧
    ∃ toks user,
      revokeFirst (refreshMatch tok tok.user_id now) db.refresh_tokens =
        some toks ∧
      findUserById db.users tok.user_id = some user ∧
      res = { access_token := create_access_token user.id user.email now,
              refresh_token := create_refresh_token user.id now,
              token_type := "bearer" } ∧
      db' = { db with refresh_tokens := toks ++
        [{ token := create_refresh_token user.id now, user_id := user.id,
           expires_at := now + refreshTokenTTL, is_revoked := false }] } := by
  unfold refresh_token at h
  split at h
  · cases h
  · rename_i payload hv
    obtain ⟨hpe, hexp, htyp⟩ := verify_token_ok hv
    split at h
    · cases h
    · rename_i toks hrf
      split at h
      · cases h
      · rename_i user hu
        unfold issueTokens at h
        rw [hpe] at hrf hu
        cases h
        exact ⟨⟨hexp, htyp⟩, toks, user, hrf, hu, rfl, rfl⟩

theorem revoke_all_mem {uid : Nat} {l : List RefreshTokenRec} :
    ∀ r ∈ revoke_all_for_user uid l, r.user_id = uid → r.is_revoked = true := by
  intro r hr hru
  rcases List.mem_map.mp hr with ⟨r0, _, rfl⟩
  by_cases hc : (r0.user_id == uid && !r0.is_revoked) = true
  · rw [if_pos hc]
  · rw [if_neg hc] at hru ⊢
    cases hrev : r0.is_revoked
    · exact absurd (by simp [hru, hrev]) hc
    · rfl

theorem close_all_mem {uid : Nat} {l : List SessionRec} :
    ∀ s ∈ close_all_for_user uid l, s.user_id = uid → s.is_active = false := by
  intro s hs hsu
  rcases List.mem_map.mp hs with ⟨s0, _, rfl⟩
  by_cases hc : (s0.user_id == uid && s0.is_active) = true
  · rw [if_pos hc]
  · rw [if_neg hc] at hsu ⊢
    cases hact : s0.is_active
    · rfl
    · exact absurd (by simp [hsu, hact]) hc

theorem revoke_all_idem (uid : Nat) (l : List RefreshTokenRec) :
    revoke_all_for_user uid (revoke_all_for_user uid l) =
      revoke_all_for_user uid l := by
  unfold revoke_all_for_user
  rw [List.map_map]
  apply List.map_congr_left
  intro r _
  simp only [Function.comp_apply]
  by_cases hc : (r.user_id == uid && !r.is_revoked) = true
  · simp only [if_pos hc]
    rw [if_neg (by simp)]
  · simp only [if_neg hc]

theorem close_all_idem (uid : Nat) (l : List SessionRec) :
    close_all_for_user uid (close_all_for_user uid l) =
      close_all_for_user uid l := by
  unfold close_all_for_user
  rw [List.map_map]
  apply List.map_congr_left
  intro s _
  simp only [Function.comp_apply]
  by_cases hc : (s.user_id == uid && s.is_active) = true
  · simp only [if_pos hc]
    rw [if_neg (by simp)]
  · simp only [if_neg hc]

/-- Evaluation of `federated_login` when the email is already present. -/
theorem federated_login_some (provider email username : String)
    (fn av : Option String) (pid : String) (now : Nat) (db : DB) (u : User)
    (hu : findUserByEmail db.users email = some u) :
    federated_login provider email username fn av pid now db =
      (Except.ok { access_token := create_access_token u.id u.email now,
                   refresh_token := create_refresh_token u.id now,
                   token_type := "bearer" },
       { db with refresh_tokens := db.refresh_tokens ++
           [{ token := create_refresh_token u.id now, user_id := u.id,
              expires_at := now + refreshTokenTTL, is_revoked := false }] }) := by
  simp only [federated_login, hu, issueTokens]

/-- Evaluation of `federated_login` when the email is absent. -/
theorem federated_login_none (provider email username : String)
    (fn av : Option String) (pid : String) (now : Nat) (db : DB)
    (hn : findUserByEmail db.users email = none) :
    federated_login provider email username fn av pid now db =
      (Except.ok
        { access_token := create_access_token db.next_user_id email now,
          refresh_token := create_refresh_token db.next_user_id now,
          token_type := "bearer" },
       { users := db.users ++
           [mkFederatedUser provider email username fn av pid db.next_user_id],
         refresh_tokens := db.refresh_tokens ++
           [{ token := create_refresh_token db.next_user_id now,
              user_id := db.next_user_id,
              expires_at := now + refreshTokenTTL, is_revoked := false }],
         sessions := db.sessions,
         next_user_id := db.next_user_id + 1 }) := by
  simp [federated_login, hn, issueTokens, mkFederatedUser]

/-! ## Claims -/

/-- C1: refresh tokens are single-use and rotated.  If a refresh call
presenting token `T` succeeds (at a time other than `T`'s own issue instant,
over a ledger whose token strings are distinct), then the returned refresh
token differs from `T`, `T`'s ledger record is marked revoked, a fresh
unrevoked record is stored, and any later refresh presenting `T` — even
before `T`'s original expiry — fails with status 401. -/
theorem refresh_single_use (db db' : DB) (T : TokenPayload) (t1 t2 : Nat)
    (res : Token)
    (hnd : (db.refresh_tokens.map fun r => r.token).Nodup)
    (hiat : T.iat ≠ t1) (ht : t1 ≤ t2)
    (h : refresh_token T t1 db = (Except.ok res, db')) :
    res.refresh_token ≠ T ∧
    (∃ r ∈ db'.refresh_tokens, r.token = T ∧ r.is_revoked = true) ∧
    (∃ r ∈ db'.refresh_tokens, r.token = res.refresh_token ∧
      r.is_revoked = false) ∧
    ∃ e, (refresh_token T t2 db').1 = Except.error e ∧ e.status = 401 := by
  obtain ⟨⟨hexp, htyp⟩, toks, user, hrf, hu, hres, hdb'⟩ := refresh_token_ok h
  refine ⟨?_, ?_, ?_, ?_⟩
  · subst hres
    intro he
    exact hiat (by rw [← he]; rfl)
  · obtain ⟨i, a, hget, hm, htoks⟩ := revokeFirst_spec hrf
    refine ⟨{ a with is_revoked := true }, ?_, (refreshMatch_iff.mp hm).1, rfl⟩
    rw [hdb']
    exact List.mem_append_left _ (htoks ▸ mem_set_of_get? hget)
  · refine ⟨{ token := create_refresh_token user.id t1, user_id := user.id,
              expires_at := t1 + refreshTokenTTL, is_revoked := false },
      ?_, ?_, rfl⟩
    · rw [hdb']
      exact List.mem_append_right _ (List.mem_singleton.mpr rfl)
    · rw [hres]
  · by_cases hexp2 : T.exp < t2
    · refine ⟨AuthError.tokenExpired, ?_, rfl⟩
      simp only [refresh_token, verify_token, if_pos hexp2]
    · have hv2 : verify_token T TokenType.refresh t2 = Except.ok T :=
        verify_token_ok_of hexp2 htyp
      have hnone : revokeFirst (refreshMatch T T.user_id t2)
          db'.refresh_tokens = none := by
        rw [hdb', revokeFirst_eq_none_iff]
        intro r hr
        rcases List.mem_append.mp hr with hr | hr
        · exact revokeFirst_consume hnd hrf ht r hr
        · rw [List.mem_singleton.mp hr, Bool.eq_false_iff]
          intro hc
          have he : (create_refresh_token user.id t1) = T := by
            simpa using (refreshMatch_iff.mp hc).1
          exact hiat (by rw [← he]; rfl)
      refine ⟨AuthError.http 401 "Invalid refresh token", ?_, rfl⟩
      simp only [refresh_token, hv2, hnone]

/-- C1 witness: a concrete successful refresh at time 101 of the refresh
token issued at time 100 to user 1, followed by a rejected replay at 102. -/
theorem refresh_single_use_witness :
    ∃ e, (refresh_token tok1 102 db1r).1 = Except.error e ∧ e.status = 401 :=
  (refresh_single_use db1 db1r tok1 101 102 res1 (by decide) (by decide)
    (by decide) rfl).2.2.2

/-- C2 counterexample: a successful `register` on the empty store opens no
session record — the session registry stays empty, refuting the claim that
one session is opened. -/
theorem register_opens_no_session :
    (register "a@x.com" "a" none "p1" "s1" 0 db0).1.isOk = true ∧
    db0.sessions = [] ∧
    (register "a@x.com" "a" none "p1" "s1" 0 db0).2.sessions = [] :=
  ⟨rfl, rfl, rfl⟩

/-- C2 (amended): every successful register, login, and federated callback
issues one access token and one refresh token, persists exactly that refresh
token as one new unrevoked ledger record — and opens no session record: the
session registry is left unchanged by all three flows. -/
theorem auth_flows_store_token_open_no_session
    (email username password salt provider pid : String)
    (fn av : Option String) (now : Nat) (db : DB) :
    (∀ res db', register email username fn password salt now db =
        (Except.ok res, db') →
      db'.sessions = db.sessions ∧ res.token_type = "bearer" ∧
      db'.refresh_tokens = db.refresh_tokens ++
        [{ token := res.refresh_token, user_id := res.refresh_token.user_id,
           expires_at := now + refreshTokenTTL, is_revoked := false }]) ∧
    (∀ res db', login email password now db = (Except.ok res, db') →
      db'.sessions = db.sessions ∧ res.token_type = "bearer" ∧
      db'.refresh_tokens = db.refresh_tokens ++
        [{ token := res.refresh_token, user_id := res.refresh_token.user_id,
           expires_at := now + refreshTokenTTL, is_revoked := false }]) ∧
    (∀ res db', federated_login provider email username fn av pid now db =
        (Except.ok res, db') →
      db'.sessions = db.sessions ∧ res.token_type = "bearer" ∧
      db'.refresh_tokens = db.refresh_tokens ++
        [{ token := res.refresh_token, user_id := res.refresh_token.user_id,
           expires_at := now + refreshTokenTTL, is_revoked := false }]) := by
  refine ⟨?_, ?_, ?_⟩
  · intro res db' h
    unfold register at h
    split at h
    · cases h
    · unfold issueTokens at h
      cases h
      exact ⟨rfl, rfl, rfl⟩
  · intro res db' h
    unfold login at h
    split at h
    · cases h
    · split at h
      · cases h
      · split at h
        · cases h
        · split at h
          · cases h
          · unfold issueTokens at h
            cases h
            exact ⟨rfl, rfl, rfl⟩
  · intro res db' h
    unfold federated_login at h
    split at h
    · unfold issueTokens at h
      cases h
      exact ⟨rfl, rfl, rfl⟩
    · unfold issueTokens at h
      cases h
      exact ⟨rfl, rfl, rfl⟩

/-- C2 witness: the concrete register on the empty store leaves the (empty)
session registry unchanged and stores exactly its refresh token. -/
theorem auth_flows_store_token_open_no_session_witness :
    dbReg.sessions = db0.sessions ∧ resReg.token_type = "bearer" ∧
    dbReg.refresh_tokens = db0.refresh_tokens ++
      [{ token := resReg.refresh_token,
         user_id := resReg.refresh_token.user_id,
         expires_at := 0 + refreshTokenTTL, is_revoked := false }] :=
  (auth_flows_store_token_open_no_session "a@x.com" "a" "p1" "s1" "g" "42"
    none none 0 db0).1 resReg dbReg rfl

/-- C3: the token type claim is enforced on every verification.  An
unexpired token of type `refresh` presented as the bearer credential of
`get_current_user` is rejected with the type-mismatch error, and an
unexpired token of type `access` presented to the refresh operation is
rejected with the type-mismatch error. -/
theorem token_type_enforced (tok : TokenPayload) (now : Nat) (db : DB)
    (hexp : ¬ tok.exp < now) :
    (tok.typ = TokenType.refresh →
      get_current_user tok now db =
        Except.error AuthError.tokenTypeMismatch) ∧
    (tok.typ = TokenType.access →
      (refresh_token tok now db).1 =
        Except.error AuthError.tokenTypeMismatch) := by
  constructor
  · intro htyp
    have hv : verify_token tok TokenType.access now =
        Except.error AuthError.tokenTypeMismatch := by
      unfold verify_token
      rw [if_neg hexp, if_pos (by simp [htyp])]
    simp only [get_current_user, hv]
  · intro htyp
    have hv : verify_token tok TokenType.refresh now =
        Except.error AuthError.tokenTypeMismatch := by
      unfold verify_token
      rw [if_neg hexp, if_pos (by simp [htyp])]
    simp only [refresh_token, hv]

/-- C3 witness: the refresh token `tok1` is rejected as a bearer access
credential, and a concrete access token is rejected by refresh. -/
theorem token_type_enforced_witness :
    get_current_user tok1 100 db1 =
      Except.error AuthError.tokenTypeMismatch ∧
    (refresh_token (create_access_token 1 "a@x.com" 100) 100 db1).1 =
      Except.error AuthError.tokenTypeMismatch :=
  ⟨(token_type_enforced tok1 100 db1 (by decide)).1 rfl,
   (token_type_enforced (create_access_token 1 "a@x.com" 100) 100 db1
     (by decide)).2 rfl⟩

/-- C4: registration succeeds when no existing user shares the email or the
username, appending exactly that one user; it fails with the 400 duplicate
error and leaves the database unchanged whenever some existing user shares
the email OR the username. -/
theorem register_conflict (email username : String) (fn : Option String)
    (password salt : String) (now : Nat) (db : DB) :
    ((∀ u ∈ db.users, u.email ≠ email ∧ u.username ≠ username) →
      ∃ u, u.email = email ∧ u.username = username ∧
        (register email username fn password salt now db).1.isOk = true ∧
        (register email username fn password salt now db).2.users =
          db.users ++ [u]) ∧
    ((∃ u ∈ db.users, u.email = email ∨ u.username = username) →
      register email username fn password salt now db =
        (Except.error
          (AuthError.http 400 "Email or username already registered"), db)) := by
  constructor
  · intro hno
    have hfind : (db.users.find? fun u =>
        u.email == email || u.username == username) = none := by
      rw [List.find?_eq_none]
      intro u hu
      rcases hno u hu with ⟨h1, h2⟩
      simp [h1, h2]
    refine ⟨{ id := db.next_user_id, email := email, username := username,
              full_name := fn,
              hashed_password := some (get_password_hash password salt),
              avatar_url := none, provider := "local", provider_id := none,
              is_active := true, is_verified := false, last_login := none },
      rfl, rfl, ?_, ?_⟩ <;>
      simp [register, hfind, issueTokens, Except.isOk, Except.toBool]
  · intro hex
    have hfind : (db.users.find? fun u =>
        u.email == email || u.username == username).isSome = true := by
      rw [List.find?_isSome]
      rcases hex with ⟨u, hu, hor⟩
      refine ⟨u, hu, ?_⟩
      rcases hor with h | h <;> simp [h]
    simp only [register, hfind, if_true]

/-- C4 witness: registering a fresh identity on the empty store succeeds,
and a second attempt sharing the email of the existing user `user1` fails
with the 400 duplicate error and changes nothing. -/
theorem register_conflict_witness :
    (register "a@x.com" "a" none "p1" "s1" 0 db0).1.isOk = true ∧
    register "a@x.com" "b" none "p2" "s2" 5 db1 =
      (Except.error
        (AuthError.http 400 "Email or username already registered"), db1) := by
  constructor
  · obtain ⟨u, _, _, hok, _⟩ :=
      (register_conflict "a@x.com" "a" none "p1" "s1" 0 db0).1
        (by intro u hu; cases hu)
    exact hok
  · exact (register_conflict "a@x.com" "b" none "p2" "s2" 5 db1).2
      ⟨user1, List.mem_singleton.mpr rfl, Or.inl rfl⟩

/-- C5: login failure is indistinguishable between causes — when no user
carries the given email, and when the user exists but the password fails
verification, `login` produces the identical response: the same 401 error
with the same detail and an unchanged database. -/
theorem login_failure_uniform (email password : String) (now : Nat)
    (db : DB) :
    (findUserByEmail db.users email = none →
      login email password now db =
        (Except.error (AuthError.http 401 "Incorrect email or password"), db)) ∧
    (∀ u h, findUserByEmail db.users email = some u →
      u.hashed_password = some h → verify_password password h = false →
      login email password now db =
        (Except.error (AuthError.http 401 "Incorrect email or password"), db)) := by
  constructor
  · intro hn
    simp only [login, hn]
  · intro u h hu hh hv
    simp only [login, hu, hh, hv]
    simp

/-- C5 witness: an unknown email and a wrong password for `user1` yield the
same concrete 401 response. -/
theorem login_failure_uniform_witness :
    login "z@x.com" "p1" 0 db1 =
      (Except.error (AuthError.http 401 "Incorrect email or password"), db1) ∧
    login "a@x.com" "wrong" 0 db1 =
      (Except.error (AuthError.http 401 "Incorrect email or password"), db1) :=
  ⟨(login_failure_uniform "z@x.com" "p1" 0 db1).1 rfl,
   (login_failure_uniform "a@x.com" "wrong" 0 db1).2 user1 hash1 rfl rfl
     (by decide)⟩

/-- C6: logout revokes every refresh token and closes every session of the
authenticated user, after which any refresh token of that user is rejected
by refresh with status 401; a second logout succeeds as a no-op. -/
theorem logout_revokes_all (tok : TokenPayload) (now : Nat) (db : DB)
    (u : User) (hauth : get_current_user tok now db = Except.ok u) :
    (logout tok now db).1 = Except.ok "Successfully logged out" ∧
    (∀ r ∈ (logout tok now db).2.refresh_tokens, r.user_id = u.id →
      r.is_revoked = true) ∧
    (∀ s ∈ (logout tok now db).2.sessions, s.user_id = u.id →
      s.is_active = false) ∧
    (∀ T t2, T.user_id = u.id →
      ∃ e, (refresh_token T t2 (logout tok now db).2).1 = Except.error e ∧
        e.status = 401) ∧
    logout tok now (logout tok now db).2 =
      (Except.ok "Successfully logged out", (logout tok now db).2) := by
  have hl : logout tok now db =
      (Except.ok "Successfully logged out",
       { db with
         refresh_tokens := revoke_all_for_user u.id db.refresh_tokens,
         sessions := close_all_for_user u.id db.sessions }) := by
    simp only [logout, hauth]
  rw [hl]
  refine ⟨rfl, ?_, ?_, ?_, ?_⟩
  · exact fun r hr => revoke_all_mem r hr
  · exact fun s hs => close_all_mem s hs
  · intro T t2 hT
    cases hv : verify_token T TokenType.refresh t2 with
    | error e =>
      refine ⟨e, ?_, verify_token_error_status hv⟩
      simp only [refresh_token, hv]
    | ok payload =>
      obtain ⟨hpe, _, _⟩ := verify_token_ok hv
      have hnone : revokeFirst (refreshMatch T payload.user_id t2)
          (revoke_all_for_user u.id db.refresh_tokens) = none := by
        rw [revokeFirst_eq_none_iff]
        intro r hr
        rw [Bool.eq_false_iff]
        intro hc
        obtain ⟨h1, h2, h3, h4⟩ := refreshMatch_iff.mp hc
        have hrev : r.is_revoked = true :=
          revoke_all_mem r hr (by rw [h2, hpe, hT])
        rw [hrev] at h3
        cases h3
      refine ⟨AuthError.http 401 "Invalid refresh token", ?_, rfl⟩
      simp only [refresh_token, hv, hnone]
  · have hauth2 : get_current_user tok now
        { db with
          refresh_tokens := revoke_all_for_user u.id db.refresh_tokens,
          sessions := close_all_for_user u.id db.sessions } = Except.ok u :=
      hauth
    simp only [logout, hauth2, revoke_all_idem, close_all_idem]

/-- C6 witness: user 1 logs out with a concrete access token; the logout
succeeds and the previously stored refresh token `tok1` is then rejected. -/
theorem logout_revokes_all_witness :
    (logout atok1 100 db4).1 = Except.ok "Successfully logged out" ∧
    ∃ e, (refresh_token tok1 101 (logout atok1 100 db4).2).1 =
      Except.error e ∧ e.status = 401 := by
  have h := logout_revokes_all atok1 100 db4 user1 rfl
  exact ⟨h.1, h.2.2.2.1 tok1 101 rfl⟩

/-- C7: a federated callback resolves the user by email alone.  When a user
with the profile email exists, that user's id is reused and no user is
created; when absent, exactly one new user is created, verified, tagged with
the provider and external id, without a password hash — and a second
callback with the same profile reuses the same user id without creating a
duplicate. -/
theorem federated_resolves_by_email (provider email username : String)
    (fn av : Option String) (pid : String) (t1 t2 : Nat) (db : DB) :
    (∀ u, findUserByEmail db.users email = some u →
      (federated_login provider email username fn av pid t1 db).2.users =
        db.users ∧
      ∃ res, (federated_login provider email username fn av pid t1 db).1 =
        Except.ok res ∧ res.access_token.user_id = u.id) ∧
    (findUserByEmail db.users email = none →
      ∃ newU : User, newU.id = db.next_user_id ∧ newU.email = email ∧
        newU.is_verified = true ∧ newU.provider = provider ∧
        newU.provider_id = some pid ∧ newU.hashed_password = none ∧
        (federated_login provider email username fn av pid t1 db).2.users =
          db.users ++ [newU] ∧
        (∃ res, (federated_login provider email username fn av pid t1 db).1 =
          Except.ok res ∧ res.access_token.user_id = newU.id) ∧
        (∃ res2,
          (federated_login provider email username fn av pid t2
            (federated_login provider email username fn av pid t1 db).2).1 =
              Except.ok res2 ∧
          res2.access_token.user_id = newU.id ∧
          (federated_login provider email username fn av pid t2
            (federated_login provider email username fn av pid t1 db).2).2.users =
            (federated_login provider email username fn av pid t1 db).2.users)) := by
  constructor
  · intro u hu
    rw [federated_login_some provider email username fn av pid t1 db u hu]
    exact ⟨rfl, _, rfl, rfl⟩
  · intro hn
    rw [federated_login_none provider email username fn av pid t1 db hn]
    refine ⟨mkFederatedUser provider email username fn av pid db.next_user_id,
      rfl, rfl, rfl, rfl, rfl, rfl, rfl, ⟨_, rfl, rfl⟩, ?_⟩
    have hu1 : findUserByEmail (db.users ++
        [mkFederatedUser provider email username fn av pid db.next_user_id])
        email =
        some (mkFederatedUser provider email username fn av pid
          db.next_user_id) :=
      findUserByEmail_append_self db.users
        (mkFederatedUser provider email username fn av pid db.next_user_id) hn
    rw [federated_login_some provider email username fn av pid t2 _ _ hu1]
    exact ⟨_, rfl, rfl, rfl⟩

/-- C7 witness: a concrete GitHub-style profile on the empty store creates
one verified, hash-less user for the provider. -/
theorem federated_resolves_by_email_witness :
    ∃ newU : User, newU.is_verified = true ∧ newU.provider = "github" ∧
      newU.hashed_password = none ∧
      (federated_login "github" "b@x.com" "b" none none "42" 7 db0).2.users =
        db0.users ++ [newU] := by
  obtain ⟨newU, _, _, h3, h4, _, h6, h7, _, _⟩ :=
    (federated_resolves_by_email "github" "b@x.com" "b" none none "42" 7 8
      db0).2 rfl
  exact ⟨newU, h3, h4, h6, h7⟩

/-- C8: local login never succeeds for a federation-only account.  If the
user found for the email has no password hash, `login` answers the uniform
401 for every password input. -/
theorem federation_only_login_fails (db : DB) (u : User) (password : String)
    (now : Nat) (hu : findUserByEmail db.users u.email = some u)
    (hpw : u.hashed_password = none) :
    login u.email password now db =
      (Except.error (AuthError.http 401 "Incorrect email or password"), db) := by
  simp only [login, hu, hpw]

/-- C8 witness: the federated account `user2` (no password hash) is rejected
by local login with a concrete password. -/
theorem federation_only_login_fails_witness :
    login "b@x.com" "anything" 3 db2 =
      (Except.error (AuthError.http 401 "Incorrect email or password"), db2) :=
  federation_only_login_fails db2 user2 "anything" 3 rfl rfl

/-- C9: the refresh operation never consults the owning user's active flag.
A deactivated user holding a stored, unrevoked, unexpired refresh token
still refreshes successfully, while the same user is rejected with 401 by
login (for every password) and by `get_current_user`. -/
theorem refresh_ignores_inactive (db : DB) (T A : TokenPayload) (u : User)
    (r : RefreshTokenRec) (now : Nat)
    (hu : findUserById db.users T.user_id = some u)
    (hinactive : u.is_active = false)
    (hr : r ∈ db.refresh_tokens) (hrt : r.token = T)
    (hru : r.user_id = T.user_id) (hrev : r.is_revoked = false)
    (hexp2 : now < r.expires_at)
    (htyp : T.typ = TokenType.refresh) (hexp : ¬ T.exp < now)
    (hue : findUserByEmail db.users u.email = some u)
    (hA : A.user_id = T.user_id) (hAtyp : A.typ = TokenType.access)
    (hAexp : ¬ A.exp < now) :
    (refresh_token T now db).1.isOk = true ∧
    (∀ password, ∃ e, (login u.email password now db).1 = Except.error e ∧
      e.status = 401) ∧
    get_current_user A now db =
      Except.error (AuthError.http 401 "User not found or inactive") := by
  refine ⟨?_, ?_, ?_⟩
  · have hv := verify_token_ok_of hexp htyp
    obtain ⟨l', hl'⟩ := revokeFirst_isSome
      ⟨r, hr, refreshMatch_iff.mpr ⟨hrt, hru, hrev, hexp2⟩⟩
    simp only [refresh_token, hv, hl', hu, issueTokens, Except.isOk,
      Except.toBool]
  · intro password
    cases hpw : u.hashed_password with
    | none =>
      exact ⟨AuthError.http 401 "Incorrect email or password",
        by simp only [login, hue, hpw], rfl⟩
    | some h =>
      by_cases hvp : verify_password password h = true
      · refine ⟨AuthError.http 401 "Account is deactivated", ?_, rfl⟩
        simp only [login, hue, hpw, hvp, hinactive]
        simp
      · refine ⟨AuthError.http 401 "Incorrect email or password", ?_, rfl⟩
        simp only [login, hue, hpw]
        simp [hvp]
  · have hv := verify_token_ok_of hAexp hAtyp
    simp only [get_current_user, hv, hA, hu, hinactive]
    simp

/-- C9 witness: the deactivated user 3 refreshes successfully at time 60
with a stored token, while the same user is rejected by
`get_current_user`. -/
theorem refresh_ignores_inactive_witness :
    (refresh_token tok3 60 db3).1.isOk = true ∧
    get_current_user (create_access_token 3 "c@x.com" 60) 60 db3 =
      Except.error (AuthError.http 401 "User not found or inactive") := by
  have h := refresh_ignores_inactive db3 tok3
    (create_access_token 3 "c@x.com" 60) user3 rec3 60 rfl rfl
    (List.mem_singleton.mpr rfl) rfl rfl rfl (by decide) rfl (by decide)
    rfl rfl rfl (by decide)
  exact ⟨h.1, h.2.2⟩

/-- C10: a successful refresh is frame-preserving.  It leaves the user table
(including `last_login`), the session registry and the id counter unchanged,
flips only the `is_revoked` flag of the single consumed ledger record, and
appends exactly one new unrevoked record for the token's subject. -/
theorem refresh_frame (db db' : DB) (T : TokenPayload) (now : Nat)
    (res : Token) (h : refresh_token T now db = (Except.ok res, db')) :
    db'.users = db.users ∧ db'.sessions = db.sessions ∧
    db'.next_user_id = db.next_user_id ∧
    ∃ i a, db.refresh_tokens.get? i = some a ∧ a.token = T ∧
      a.user_id = T.user_id ∧ a.is_revoked = false ∧
      db'.refresh_tokens =
        (db.refresh_tokens.set i { a with is_revoked := true }) ++
        [{ token := create_refresh_token T.user_id now, user_id := T.user_id,
           expires_at := now + refreshTokenTTL, is_revoked := false }] := by
  obtain ⟨⟨hexp, htyp⟩, toks, user, hrf, hu, hres, hdb'⟩ := refresh_token_ok h
  obtain ⟨humem, huid⟩ := findUserById_some hu
  obtain ⟨i, a, hget, hm, htoks⟩ := revokeFirst_spec hrf
  obtain ⟨h1, h2, h3, h4⟩ := refreshMatch_iff.mp hm
  subst hdb'
  exact ⟨rfl, rfl, rfl, i, a, hget, h1, h2, h3,
    by rw [← huid]; rw [htoks]⟩

/-- C10 witness: the concrete refresh of `tok1` at time 101 touches only the
consumed ledger record and appends one new record. -/
theorem refresh_frame_witness :
    db1r.users = db1.users ∧ db1r.sessions = db1.sessions := by
  have h := refresh_frame db1 db1r tok1 101 res1 rfl
  exact ⟨h.1, h.2.1⟩

end TaskApp
